import Mathlib

/-!
Verification of the ToucheComm banking-functions library
(`bank-functions.js`): the five closed-form time-value-of-money
functions FV, PV, PMT, IPMT, PPMT.

Embedding choices:
* JS numbers are modelled by `ℚ` (the formulas are closed-form rational
  expressions in their arguments once `Math.pow (1+rate) periods` is read
  as an integer power), and period counts by `ℤ`.
* `Math.pow` on an integer exponent is `zpow`; in `ℚ`, `0 ^ (negative)`
  is `0` where JS yields `Infinity`, so claims about non-finite results
  use the `…checked` / `…opt` variants below, which return `none`
  exactly where the JS evaluation produces `Infinity`/`NaN`.
* The JS default-substitution idiom `x = x || 0` is `jsOr x 0`: on a
  number it keeps `x` when truthy (nonzero) and substitutes `0` when
  falsy (`0`; JS `NaN`, the only other falsy number, has no ℚ
  counterpart, and `undefined` is modelled by `Option` where a claim
  needs it).
-/

namespace Bank

/-- JS `x || d` on numbers: `x` when truthy (nonzero), else the default `d`. -/
def jsOr (x d : ℚ) : ℚ := if x = 0 then d else x

theorem jsOr_zero (x : ℚ) : jsOr x 0 = x := by
  unfold jsOr; split <;> simp [*]

/-- Function `FV(fv_rate, fv_periods, fv_payments, fv_present_value, fv_type)`,
transcribed from `bank-functions.js` lines 12–26. -/
def FV (fv_rate : ℚ) (fv_periods : ℤ) (fv_payments fv_present_value fv_type : ℚ) : ℚ :=
  let fv_present_value := jsOr fv_present_value 0
  let fv_type := jsOr fv_type 0
  if fv_rate = 0 then fv_present_value + fv_payments * fv_periods
  else
    let term : ℚ := (1 + fv_rate) ^ fv_periods
    if (1 : ℚ) = fv_type then
      fv_present_value * term + fv_payments * (1 + fv_rate) * (term - 1) / fv_rate
    else
      fv_present_value * term + fv_payments * (term - 1) / fv_rate

/-- Function `PV(pv_rate, pv_periods, pv_payment, pv_future, fv_type)`,
transcribed from `bank-functions.js` lines 45–55. -/
def PV (pv_rate : ℚ) (pv_periods : ℤ) (pv_payment pv_future fv_type : ℚ) : ℚ :=
  let pv_future := jsOr pv_future 0
  let fv_type := jsOr fv_type 0
  if pv_rate = 0 then
    -pv_payment * pv_periods - pv_future
  else
    ((1 - (1 + pv_rate) ^ pv_periods) / pv_rate * pv_payment * (1 + pv_rate * fv_type)
        - pv_future) / (1 + pv_rate) ^ pv_periods * (-1)

/-- Function `PMT(pmt_rate, pmt_periods, pmt_present, pmt_future, pmt_type)`,
transcribed from `bank-functions.js` lines 104–121. -/
def PMT (pmt_rate : ℚ) (pmt_periods : ℤ) (pmt_present pmt_future pmt_type : ℚ) : ℚ :=
  let pmt_future := jsOr pmt_future 0
  let pmt_type := jsOr pmt_type 0
  if pmt_rate = 0 then (pmt_present + pmt_future) / pmt_periods
  else
    let pmt_term : ℚ := (1 + pmt_rate) ^ pmt_periods
    if pmt_type = 1 then
      (pmt_future * pmt_rate / (pmt_term - 1)
          + pmt_present * pmt_rate / (1 - 1 / pmt_term)) / (1 + pmt_rate)
    else
      pmt_future * pmt_rate / (pmt_term - 1)
          + pmt_present * pmt_rate / (1 - 1 / pmt_term)

/-- Function `IPMT(ipmt_rate, ipmt_period, ipmt_periods, ipmt_present, ipmt_future, ipmt_type)`,
transcribed from `bank-functions.js` lines 69–90. -/
def IPMT (ipmt_rate : ℚ) (ipmt_period ipmt_periods : ℤ)
    (ipmt_present ipmt_future ipmt_type : ℚ) : ℚ :=
  let ipmt_future := jsOr ipmt_future 0
  let ipmt_type := jsOr ipmt_type 0
  let impt_payment := PMT ipmt_rate ipmt_periods ipmt_present ipmt_future ipmt_type
  let impt_interest :=
    if ipmt_period = 1 then
      if ipmt_type = 1 then 0 else -ipmt_present
    else
      if ipmt_type = 1 then
        FV ipmt_rate (ipmt_period - 2) impt_payment ipmt_present 1 - impt_payment
      else
        FV ipmt_rate (ipmt_period - 1) impt_payment ipmt_present 0
  impt_interest * ipmt_rate

/-- Function `PPMT(ppmt_rate, ppmt_period, ppmt_periods, ppmt_present, ppmt_future, ppmt_type)`,
transcribed from `bank-functions.js` lines 138–143. -/
def PPMT (ppmt_rate : ℚ) (ppmt_period ppmt_periods : ℤ)
    (ppmt_present ppmt_future ppmt_type : ℚ) : ℚ :=
  let ppmt_future := jsOr ppmt_future 0
  let ppmt_type := jsOr ppmt_type 0
  PMT ppmt_rate ppmt_periods ppmt_present ppmt_future ppmt_type
    - IPMT ppmt_rate ppmt_period ppmt_periods ppmt_present ppmt_future ppmt_type

/-- Function `FV` with its three optional arguments modelled as `Option ℚ`
(`none` = omitted, i.e. JS `undefined`).  The source defaults only
`fv_present_value` and `fv_type` (`x = x || 0`, and `undefined || 0` is
`0`); `fv_payments` is never defaulted, and every branch of the body
multiplies `fv_payments` into the result, so an omitted payment makes the
whole result `NaN`, modelled as `none`. -/
def FVopt (fv_rate : ℚ) (fv_periods : ℤ) (fv_payments fv_present_value fv_type : Option ℚ) :
    Option ℚ :=
  let fv_present_value := jsOr (fv_present_value.getD 0) 0
  let fv_type := jsOr (fv_type.getD 0) 0
  match fv_payments with
  | none => none
  | some p => some (FV fv_rate fv_periods p fv_present_value fv_type)

/-- Function `FV` instrumented for IEEE definedness: returns `none` exactly where
the JS evaluation yields a non-finite (`Infinity`/`NaN`) number.  In the
non-zero-rate branch that happens only when `Math.pow (1 + fv_rate)
fv_periods` raises `0` to a negative power; the divisions are by
`fv_rate`, which the branch guarantees nonzero. -/
def FVchecked (fv_rate : ℚ) (fv_periods : ℤ) (fv_payments fv_present_value fv_type : ℚ) :
    Option ℚ :=
  let fv_present_value := jsOr fv_present_value 0
  let fv_type := jsOr fv_type 0
  if fv_rate = 0 then some (fv_present_value + fv_payments * fv_periods)
  else if 1 + fv_rate = 0 ∧ fv_periods < 0 then none
  else
    let term : ℚ := (1 + fv_rate) ^ fv_periods
    if (1 : ℚ) = fv_type then
      some (fv_present_value * term + fv_payments * (1 + fv_rate) * (term - 1) / fv_rate)
    else
      some (fv_present_value * term + fv_payments * (term - 1) / fv_rate)

/-- Function `PMT` instrumented for IEEE definedness: returns `none` exactly where
the JS evaluation yields a non-finite (`Infinity`/`NaN`) number:
* `pmt_rate = 0` with `pmt_periods = 0` divides `pmt_present + pmt_future`
  by zero;
* `(1 + pmt_rate) ^ pmt_periods` raises `0` to a negative power;
* `pmt_term = 1` makes both denominators `pmt_term - 1` and
  `1 - 1 / pmt_term` zero;
* in the `pmt_type = 1` branch, `1 + pmt_rate = 0` divides by zero.
When `pmt_term = 0` (rate `-1`, positive periods) JS computes
`1 - 1 / pmt_term = -Infinity` and `pmt_present * pmt_rate / -Infinity
= -0`, so that summand is `0` and the result stays finite. -/
def PMTchecked (pmt_rate : ℚ) (pmt_periods : ℤ) (pmt_present pmt_future pmt_type : ℚ) :
    Option ℚ :=
  let pmt_future := jsOr pmt_future 0
  let pmt_type := jsOr pmt_type 0
  if pmt_rate = 0 then
    if (pmt_periods : ℚ) = 0 then none else some ((pmt_present + pmt_future) / pmt_periods)
  else if 1 + pmt_rate = 0 ∧ pmt_periods < 0 then none
  else
    let pmt_term : ℚ := (1 + pmt_rate) ^ pmt_periods
    if pmt_term = 1 then none
    else
      let second := if pmt_term = 0 then 0 else pmt_present * pmt_rate / (1 - 1 / pmt_term)
      let sum := pmt_future * pmt_rate / (pmt_term - 1) + second
      if pmt_type = 1 then
        if 1 + pmt_rate = 0 then none else some (sum / (1 + pmt_rate))
      else some sum

end Bank

namespace Bank

/-- C1 (counterexample): `PMT(0.01, 36, 10000, 0, 0)` is strictly positive,
so it is not approximately `-332.143` and is not a negative payment. -/
theorem pmt_example_not_negative : (0 : ℚ) < PMT (1/100) 36 10000 0 0 := by
  norm_num [PMT, jsOr]

/-- C1 (amended): `PMT(0.01, 36, 10000, 0, 0)` returns approximately
`+332.143` — the exact value lies strictly between `332.143` and
`332.144`; the implementation returns the positive magnitude, with no
sign flip on the payment. -/
theorem pmt_example_value :
    (332143/1000 : ℚ) < PMT (1/100) 36 10000 0 0
    ∧ PMT (1/100) 36 10000 0 0 < (332144/1000 : ℚ) := by
  constructor <;> norm_num [PMT, jsOr]

/-- C2 (counterexample): at rate `0.1`, one period, payment `100`,
present value `1000`, type `0`, the composition
`PV(rate, periods, payment, FV(rate, periods, payment, pv, type), type)`
equals `13000/11 ≈ 1181.8`, which is not within `1e-9` relative
tolerance of `-pv = -1000`. -/
theorem pv_fv_not_inverse :
    PV (1/10) 1 100 (FV (1/10) 1 100 1000 0) 0 = 13000/11
    ∧ ¬ |(13000/11 : ℚ) - (-1000)| ≤ (1/1000000000) * |(-1000 : ℚ)| := by
  constructor
  · norm_num [PV, FV, jsOr]
  · rw [not_le]
    norm_num [abs]

/-- C2 (amended): for `rate ≠ 0`, `1 + rate ≠ 0`, `periods > 0` and
`type ∈ {0,1}`, the composition
`PV(rate, periods, payment, FV(rate, periods, payment, pv, type), type)`
equals exactly
`pv + 2*payment*(1 + rate*type)*((1+rate)^periods - 1)/(rate*(1+rate)^periods)`
— in particular it reproduces `+pv`, not `-pv`, when `payment = 0`:
the implementation of `FV` carries no sign flip, so the round trip is
not the sign-flipping inverse the claim states. -/
theorem pv_fv_composition (rate : ℚ) (n : ℤ) (payment pv t : ℚ)
    (hr : rate ≠ 0) (hr1 : 1 + rate ≠ 0) (hn : 0 < n) (ht : t = 0 ∨ t = 1) :
    PV rate n payment (FV rate n payment pv t) t
      = pv + 2 * payment * (1 + rate * t) * ((1 + rate) ^ n - 1)
          / (rate * (1 + rate) ^ n) := by
  have hT : (1 + rate) ^ n ≠ 0 := zpow_ne_zero n hr1
  rcases ht with h | h <;> subst h <;>
    · simp only [PV, FV, jsOr_zero]
      norm_num [hr]
      field_simp
      ring

/-- C2 (witness): the amended composition law evaluated at rate `0.1`,
one period, payment `100`, present value `1000`, type `0`. -/
theorem pv_fv_composition_witness :
    PV (1/10) 1 100 (FV (1/10) 1 100 1000 0) 0
      = 1000 + 2 * 100 * (1 + (1/10) * 0) * ((1 + 1/10) ^ (1:ℤ) - 1)
          / ((1/10) * (1 + 1/10) ^ (1:ℤ)) :=
  pv_fv_composition (1/10) 1 100 1000 0 (by norm_num) (by norm_num)
    (by norm_num) (Or.inl rfl)

/-- C3: for every rate, period, total periods, present value, future
value and type, `PPMT + IPMT = PMT` holds exactly: `PPMT` is defined as
`PMT - IPMT`, so the sum telescopes back to `PMT`. -/
theorem ppmt_add_ipmt_eq_pmt (rate : ℚ) (p n : ℤ) (pv fv t : ℚ) :
    PPMT rate p n pv fv t + IPMT rate p n pv fv t = PMT rate n pv fv t := by
  simp only [PPMT, jsOr_zero]
  ring

/-- C4: `IPMT(rate, 1, periods, pv, fv, 1)` is `0` for every rate,
number of periods, present value and future value: the period-1,
type-1 branch sets the interest base to `0` and the result is
`0 * rate = 0`. -/
theorem ipmt_period_one_type_one (rate : ℚ) (n : ℤ) (pv fv : ℚ) :
    IPMT rate 1 n pv fv 1 = 0 := by
  norm_num [IPMT, jsOr]

/-- C5 (counterexample): `FV(-1, 36, 100, 1000, 0)` — rate `-1` with
nonzero (positive) periods — is a perfectly finite, defined value: the
term `(1 + rate)^periods` is `0`, the division is by `rate = -1` (not
zero), and the result is exactly the payment, `100`. -/
theorem fv_rate_neg_one_positive_periods_finite :
    FVchecked (-1) 36 100 1000 0 = some 100 := by
  norm_num [FVchecked, jsOr]

/-- C5 (amended): `FV` with rate `-1` and *negative* periods produces a
non-finite (`Infinity`/`NaN`) result: `Math.pow(0, periods)` with a
negative exponent is `Infinity` and it propagates; with positive
periods the result is finite since the only division is by
`rate = -1`. -/
theorem fv_rate_neg_one_negative_periods_undefined
    (n : ℤ) (payment pv t : ℚ) (hn : n < 0) :
    FVchecked (-1) n payment pv t = none := by
  norm_num [FVchecked, hn]

/-- C5 (witness): the amended statement at periods `-2`. -/
theorem fv_rate_neg_one_negative_periods_undefined_witness :
    FVchecked (-1) (-2) 100 1000 0 = none :=
  fv_rate_neg_one_negative_periods_undefined (-2) 100 1000 0 (by decide)

/-- C6 (counterexample): `FV(0, 12)` with the payment argument omitted
returns `NaN` (modelled `none`), not the defaulted present value `0`:
omitting the payment is *not* equivalent to passing payment `0`, which
returns `0`. -/
theorem fv_omitted_payment_nan :
    FVopt 0 12 none none none = none ∧ FV 0 12 0 0 0 = 0 := by
  constructor
  · rfl
  · norm_num [FV, jsOr]

/-- C6 (amended): `FV` never default-substitutes its payment argument —
with payment omitted the result is `NaN` (`none`) for all inputs —
whereas omitting `present_value` and `type` is equivalent to passing
`0` for them. -/
theorem fv_payment_not_defaulted (rate : ℚ) (n : ℤ) (pv ty : Option ℚ) :
    FVopt rate n none pv ty = none
    ∧ ∀ pm : ℚ, FVopt rate n (some pm) none none = some (FV rate n pm 0 0) := by
  constructor
  · rfl
  · intro pm
    simp [FVopt, jsOr]

/-- C7: at rate `0`, each of `FV`, `PV`, `PMT` is computed by its simple
linear branch: `FV = pv + payment * periods`,
`PV = -payment * periods - fv`, `PMT = (pv + fv) / periods`, with no
exponentiation involved. -/
theorem zero_rate_linear (n : ℤ) (payment pv fv t : ℚ) :
    FV 0 n payment pv t = pv + payment * n
    ∧ PV 0 n payment fv t = -payment * n - fv
    ∧ PMT 0 n pv fv t = (pv + fv) / n := by
  refine ⟨?_, ?_, ?_⟩ <;> simp [FV, PV, PMT, jsOr_zero]

/-- C8: for every period greater than 1, `IPMT` is the rate times the
closed-form interest base computed via `FV` at the constant payment
`PMT(...)`: base `FV(rate, period-2, payment, pv, 1) - payment` for
type 1 and `FV(rate, period-1, payment, pv, 0)` for type 0. -/
theorem ipmt_closed_form_base (rate : ℚ) (p n : ℤ) (pv fv : ℚ) (hp : 1 < p) :
    IPMT rate p n pv fv 1
        = rate * (FV rate (p - 2) (PMT rate n pv fv 1) pv 1 - PMT rate n pv fv 1)
    ∧ IPMT rate p n pv fv 0
        = rate * FV rate (p - 1) (PMT rate n pv fv 0) pv 0 := by
  have hp1 : p ≠ 1 := by omega
  constructor <;>
    · norm_num [IPMT, jsOr_zero, hp1]
      ring

/-- C8 (witness): the closed-form base at rate `0.1`, period `2` of
`12`, present value `1000`, future value `0`. -/
theorem ipmt_closed_form_base_witness :
    IPMT (1/10) 2 12 1000 0 1
        = (1/10) * (FV (1/10) (2 - 2) (PMT (1/10) 12 1000 0 1) 1000 1
            - PMT (1/10) 12 1000 0 1)
    ∧ IPMT (1/10) 2 12 1000 0 0
        = (1/10) * FV (1/10) (2 - 1) (PMT (1/10) 12 1000 0 0) 1000 0 :=
  ipmt_closed_form_base (1/10) 2 12 1000 0 (by decide)

/-- C9: any type value other than `0` and `1` (e.g. `2`) falls through
the `=== 1` branch tests of `FV`, `PMT` and `IPMT`, giving exactly the
type-0 result, while `PV` uses the type arithmetically in
`1 + rate * type`, so at rate `1`, one period, payment `1`, `PV` with
type `2` differs from `PV` with type `0` and from `PV` with type `1`. -/
theorem type_values_other_than_one (t : ℚ) (ht0 : t ≠ 0) (ht1 : t ≠ 1) :
    (∀ (rate : ℚ) (n : ℤ) (payment pv : ℚ),
        FV rate n payment pv t = FV rate n payment pv 0)
    ∧ (∀ (rate : ℚ) (n : ℤ) (pv fv : ℚ),
        PMT rate n pv fv t = PMT rate n pv fv 0)
    ∧ (∀ (rate : ℚ) (p n : ℤ) (pv fv : ℚ),
        IPMT rate p n pv fv t = IPMT rate p n pv fv 0)
    ∧ (PV 1 1 1 0 2 ≠ PV 1 1 1 0 0 ∧ PV 1 1 1 0 2 ≠ PV 1 1 1 0 1) := by
  have h1t : ¬(1 : ℚ) = t := fun h => ht1 h.symm
  have hPMT : ∀ (rate : ℚ) (n : ℤ) (pv fv : ℚ),
      PMT rate n pv fv t = PMT rate n pv fv 0 := by
    intro rate n pv fv
    simp [PMT, jsOr, ht0, ht1]
  refine ⟨?_, hPMT, ?_, ?_⟩
  · intro rate n payment pv
    simp [FV, jsOr, ht0, h1t]
  · intro rate p n pv fv
    simp [IPMT, jsOr, ht0, ht1, hPMT]
  · constructor <;> norm_num [PV, jsOr]

/-- C9 (witness): type `2` gives the type-0 result of `FV` at concrete
arguments. -/
theorem type_values_other_than_one_witness :
    FV 1 1 1 1 2 = FV 1 1 1 1 0 :=
  (type_values_other_than_one 2 (by norm_num) (by norm_num)).1 1 1 1 1

/-- C10: `PMT` with `periods = 0` yields a non-finite number in both
branches instead of signaling an error: at rate `0` it divides
`pv + fv` by zero, and at any other rate the term `(1+rate)^0 = 1`
zeroes both denominators `term - 1` and `1 - 1/term`. -/
theorem pmt_zero_periods_nonfinite (rate pv fv t : ℚ) :
    PMTchecked rate 0 pv fv t = none := by
  by_cases hr : rate = 0
  · simp [PMTchecked, hr]
  · simp [PMTchecked, hr]

end Bank
